import Mathlib

/-!
Verification development for the healthcare-api repository.

Part 1 models the deterministic scoring engine of `src/lib/risk-scoring.ts`
as executable Lean functions: the JavaScript string-to-number coercion is
embedded as a partial decimal parser over exact rationals (`jsNumber`), and
the three field scorers, the per-record assessor and their result records
mirror the source line by line.

Part 2 models the resilient retrieval/submission client of
`src/lib/api-client.ts` as fuel-indexed state functions over an abstract
response oracle, recording every issued request and every sleep in an
explicit event trace, so that retry counts, backoff delays and pagination
order are provable facts about the trace.
-/

/-- A vital-sign input as it arrives from the API: the TypeScript type
`number | string | null | undefined`.  `null` stands for both JavaScript
`null` and `undefined`; the modelled code always tests for absence before
converting, so the two are never distinguished behaviourally. -/
inductive VitalValue : Type
  | null : VitalValue
  | num (q : ℚ) : VitalValue
  | str (s : String) : VitalValue
deriving DecidableEq

/-- Whitespace recognised by the JavaScript `trim` and `Number` coercion,
restricted to the ASCII whitespace characters that occur in the data. -/
def jsWhitespace (c : Char) : Bool :=
  c = ' ' || c = '\t' || c = '\n' || c = '\r' || c = '\x0b' || c = '\x0c'

/-- Strip leading and trailing JavaScript whitespace from a character list. -/
def jsTrimList (cs : List Char) : List Char :=
  ((cs.dropWhile jsWhitespace).reverse.dropWhile jsWhitespace).reverse

/-- Model of `String.prototype.trim`. -/
def jsTrim (s : String) : String :=
  String.mk (jsTrimList s.data)

/-- Numeric value of a digit character. -/
def digitVal (c : Char) : ℕ := c.toNat - 48

/-- Value of a digit string read in base 10. -/
def digitsToNat (cs : List Char) : ℕ :=
  cs.foldl (fun a c => 10 * a + digitVal c) 0

/-- Powers of ten over the rationals. -/
def pow10 (n : ℕ) : ℚ := (10 : ℚ) ^ n

/-- Scale a rational by a signed decimal exponent. -/
def applyExp (q : ℚ) : ℤ → ℚ
  | Int.ofNat n => q * pow10 n
  | Int.negSucc n => q / pow10 (n + 1)

/-- Parse the mantissa of a JavaScript decimal literal: digits with an
optional single decimal point, at least one digit present. -/
def jsParseMantissa (cs : List Char) : Option ℚ :=
  let intPart := cs.takeWhile (fun c => !(c = '.'))
  let rest := cs.dropWhile (fun c => !(c = '.'))
  match rest with
  | [] =>
      if !intPart.isEmpty && intPart.all Char.isDigit then
        some ((digitsToNat intPart : ℕ) : ℚ)
      else
        Option.none
  | _ :: frac =>
      if !(intPart.isEmpty && frac.isEmpty) && intPart.all Char.isDigit
          && frac.all Char.isDigit && frac.all (fun c => !(c = '.')) then
        some (((digitsToNat intPart : ℕ) : ℚ) + ((digitsToNat frac : ℕ) : ℚ) / pow10 frac.length)
      else
        Option.none

/-- Parse the signed integer exponent of a JavaScript decimal literal. -/
def jsParseExp (cs : List Char) : Option ℤ :=
  match cs with
  | '+' :: ds =>
      if !ds.isEmpty && ds.all Char.isDigit then some ((digitsToNat ds : ℕ) : ℤ) else Option.none
  | '-' :: ds =>
      if !ds.isEmpty && ds.all Char.isDigit then some (-((digitsToNat ds : ℕ) : ℤ)) else Option.none
  | ds =>
      if !ds.isEmpty && ds.all Char.isDigit then some ((digitsToNat ds : ℕ) : ℤ) else Option.none

/-- Parse an unsigned JavaScript decimal literal with optional exponent. -/
def jsParseUnsigned (cs : List Char) : Option ℚ :=
  let mant := cs.takeWhile (fun c => !(c = 'e' || c = 'E'))
  let rest := cs.dropWhile (fun c => !(c = 'e' || c = 'E'))
  match rest with
  | [] => jsParseMantissa mant
  | _ :: expPart =>
      match jsParseMantissa mant, jsParseExp expPart with
      | some m, some e => some (applyExp m e)
      | _, _ => Option.none

/-- Model of the JavaScript `Number(string)` coercion on the decimal
notation used by the vital-sign data: whitespace is trimmed, the empty
string coerces to `0`, and otherwise an optionally signed decimal literal
is parsed exactly into a rational.  `Option.none` models `NaN`.  The
hexadecimal, binary, octal and `Infinity` literal forms of JavaScript do
not occur in this data domain and are not modelled. -/
def jsNumber (s : String) : Option ℚ :=
  let cs := jsTrimList s.data
  if cs.isEmpty then some 0
  else
    match cs with
    | '+' :: rest => jsParseUnsigned rest
    | '-' :: rest => (jsParseUnsigned rest).map (fun q => -q)
    | _ => jsParseUnsigned cs

/-- The numeric conversion applied to a vital value by the scorers:
`typeof v === "string" ? Number(v) : v`.  `Option.none` models `NaN`.
`Number(null)` is `0` in JavaScript; every modelled call site tests for
absence before converting, so the `null` case is never reached. -/
def toNumber : VitalValue → Option ℚ
  | VitalValue.null => some 0
  | VitalValue.num q => some q
  | VitalValue.str s => jsNumber s

/-- Whether a vital value is absent (`null` or `undefined`). -/
def VitalValue.isNull : VitalValue → Bool
  | VitalValue.null => true
  | _ => false

/-- Split a character list at every slash, keeping empty groups, exactly
as JavaScript `split("/")` does. -/
def splitSlashAux : List Char → List (List Char)
  | [] => [[]]
  | c :: cs =>
      let r := splitSlashAux cs
      if c = '/' then [] :: r
      else
        match r with
        | [] => [[c]]
        | g :: gs => (c :: g) :: gs

/-- Model of `bp.split("/")`. -/
def jsSplitSlash (s : String) : List String :=
  (splitSlashAux s.data).map String.mk

/-- Result record of the blood-pressure scorer:
`{score, isValid, category}`. -/
structure BPScoreResult where
  score : ℤ
  isValid : Bool
  category : String
deriving DecidableEq

/-- The invalid blood-pressure result `{score: 0, isValid: false,
category: "Invalid"}`. -/
def invalidBP : BPScoreResult :=
  { score := 0, isValid := false, category := "Invalid" }

/-- The systolic if-chain of `scoreBloodPressure`. -/
def systolicScore (systolic : ℚ) : ℤ :=
  if 140 ≤ systolic then 4
  else if 130 ≤ systolic then 3
  else if 120 ≤ systolic then 2
  else 1

/-- The diastolic if-chain of `scoreBloodPressure`; the diastolic-below-80
branch consults the systolic reading. -/
def diastolicScore (systolic diastolic : ℚ) : ℤ :=
  if 90 ≤ diastolic then 4
  else if 80 ≤ diastolic then 3
  else if 120 ≤ systolic ∧ systolic < 130 then 2
  else if systolic < 120 then 1
  else 0

/-- The integer-to-label category map at the end of `scoreBloodPressure`. -/
def categoryFor (finalScore : ℤ) : String :=
  if finalScore = 4 then "Stage 2"
  else if finalScore = 3 then "Stage 1"
  else if finalScore = 2 then "Elevated"
  else "Normal"

/-- Model of `scoreBloodPressure` from `src/lib/risk-scoring.ts`: reject
absent, empty or blank values, split on the slash, trim and reject empty
parts, coerce both parts with `Number`, reject `NaN`, and otherwise take
the maximum of the two band scores with its category label.  JavaScript
`split("/")` is modelled by `jsSplitSlash`. -/
def scoreBloodPressure : Option String → BPScoreResult
  | Option.none => invalidBP
  | some bp =>
    if jsTrim bp = "" then invalidBP
    else if (jsSplitSlash bp).length ≠ 2 then invalidBP
    else if jsTrim ((jsSplitSlash bp).getD 0 "") = "" ∨ jsTrim ((jsSplitSlash bp).getD 1 "") = "" then
      invalidBP
    else
      match jsNumber (jsTrim ((jsSplitSlash bp).getD 0 "")),
            jsNumber (jsTrim ((jsSplitSlash bp).getD 1 "")) with
      | some systolic, some diastolic =>
          { score := max (systolicScore systolic) (diastolicScore systolic diastolic),
            isValid := true,
            category := categoryFor (max (systolicScore systolic) (diastolicScore systolic diastolic)) }
      | _, _ => invalidBP

/-- Result record of the temperature and age scorers: `{score, isValid}`. -/
structure FieldScoreResult where
  score : ℤ
  isValid : Bool
deriving DecidableEq

/-- Model of `scoreTemperature`: absent values are invalid, strings are
coerced with `Number` and `NaN` is invalid, and numeric readings score
2 at or above 101.0, 1 at or above 99.6, and 0 below. -/
def scoreTemperature : VitalValue → FieldScoreResult
  | VitalValue.null => { score := 0, isValid := false }
  | v =>
    match toNumber v with
    | Option.none => { score := 0, isValid := false }
    | some temperature =>
        if 101 ≤ temperature then { score := 2, isValid := true }
        else if (99.6 : ℚ) ≤ temperature then { score := 1, isValid := true }
        else { score := 0, isValid := true }

/-- Model of `scoreAge`: absent values are invalid, strings are coerced
with `Number` and `NaN` is invalid, and numeric ages score 2 above 65 and
1 otherwise (both the at-least-40 branch and the final branch return 1). -/
def scoreAge : VitalValue → FieldScoreResult
  | VitalValue.null => { score := 0, isValid := false }
  | v =>
    match toNumber v with
    | Option.none => { score := 0, isValid := false }
    | some ageNum =>
        if 65 < ageNum then { score := 2, isValid := true }
        else if 40 ≤ ageNum then { score := 1, isValid := true }
        else { score := 1, isValid := true }

/-- A patient record as fetched from the API (`types/assessment.ts`). -/
structure Patient where
  patient_id : String
  name : String
  age : VitalValue
  gender : String
  blood_pressure : Option String
  temperature : VitalValue
  visit_date : String
  diagnosis : String
  medications : String
deriving DecidableEq

/-- The per-record risk score: the three field scores and their total. -/
structure RiskScore where
  bloodPressure : ℤ
  temperature : ℤ
  age : ℤ
  total : ℤ
deriving DecidableEq

/-- A patient together with the derived risk assessment; the TypeScript
spread `...patient` is modelled by the nested `patient` field. -/
structure PatientWithRisk where
  patient : Patient
  riskScore : RiskScore
  isHighRisk : Bool
  hasFever : Bool
  hasDataQualityIssues : Bool
deriving DecidableEq

/-- Model of `assessPatientRisk`: score the three fields independently,
total them unweighted, and derive the three booleans.  The fever flag
requires a valid temperature, a present raw value, and the converted
temperature at or above 99.6; `NaN` compares false. -/
def assessPatientRisk (patient : Patient) : PatientWithRisk :=
  let bpResult := scoreBloodPressure patient.blood_pressure
  let tempResult := scoreTemperature patient.temperature
  let ageResult := scoreAge patient.age
  { patient := patient,
    riskScore :=
      { bloodPressure := bpResult.score,
        temperature := tempResult.score,
        age := ageResult.score,
        total := bpResult.score + tempResult.score + ageResult.score },
    isHighRisk := decide (4 ≤ bpResult.score + tempResult.score + ageResult.score),
    hasFever := tempResult.isValid && !patient.temperature.isNull &&
      (match toNumber patient.temperature with
       | some q => decide ((99.6 : ℚ) ≤ q)
       | Option.none => false),
    hasDataQualityIssues := !bpResult.isValid || !tempResult.isValid || !ageResult.isValid }

/-!
Spec-side definitions for the blood-pressure claim: the band maps and the
category map written from the words of the specification, to be compared
with the source translation above.
-/

/-- Spec wording: systolic band <120 is 1, 120 to below 130 is 2, 130 to
below 140 is 3, at least 140 is 4. -/
def specSystolicBand (s : ℚ) : ℤ :=
  if s < 120 then 1
  else if s < 130 then 2
  else if s < 140 then 3
  else 4

/-- Spec wording: diastolic at least 90 is 4, 80 to 89 is 3; below 80 the
diastolic contributes 2 when the systolic lies in [120,130), 1 when the
systolic is below 120, and 0 when the systolic is at least 130. -/
def specDiastolicBand (s d : ℚ) : ℤ :=
  if 90 ≤ d then 4
  else if 80 ≤ d then 3
  else if s < 120 then 1
  else if 130 ≤ s then 0
  else 2

/-- Spec wording: the category is given by the map 4 to Stage 2, 3 to
Stage 1, 2 to Elevated, anything else Normal. -/
def specCategory (n : ℤ) : String :=
  if n = 4 then "Stage 2"
  else if n = 3 then "Stage 1"
  else if n = 2 then "Elevated"
  else "Normal"

/-- The blood-pressure scorer as the specification describes it: the same
rejection pipeline, with the final score the maximum of the two spec band
maps and the category taken from the spec category map. -/
def specScoreBloodPressure : Option String → BPScoreResult
  | Option.none => invalidBP
  | some bp =>
    if jsTrim bp = "" then invalidBP
    else if (jsSplitSlash bp).length ≠ 2 then invalidBP
    else if jsTrim ((jsSplitSlash bp).getD 0 "") = "" ∨ jsTrim ((jsSplitSlash bp).getD 1 "") = "" then
      invalidBP
    else
      match jsNumber (jsTrim ((jsSplitSlash bp).getD 0 "")),
            jsNumber (jsTrim ((jsSplitSlash bp).getD 1 "")) with
      | some systolic, some diastolic =>
          { score := max (specSystolicBand systolic) (specDiastolicBand systolic diastolic),
            isValid := true,
            category := specCategory (max (specSystolicBand systolic) (specDiastolicBand systolic diastolic)) }
      | _, _ => invalidBP

/-!
Part 2: the retrieval and submission client of `src/lib/api-client.ts`.

The network is an abstract oracle giving, for each attempt index, the HTTP
response observed by that attempt.  Each modelled call returns its result
together with the list of events it performed: one `request` event per
issued HTTP request and one `slept` event per awaited delay, in order.
Wall-clock time, logging and the optional progress callback carry no data
relevant to the claims and are not modelled.
-/

/-- Retry and delay constants of `api-client.ts`. -/
def MAX_RETRIES : ℕ := 5

/-- Standard base delay in milliseconds. -/
def BASE_DELAY : ℕ := 1000

/-- Constant courtesy delay between successive page fetches. -/
def RATE_LIMIT_DELAY : ℕ := 500

/-- Model of `getExponentialBackoff` from `src/lib/utils.ts`. -/
def getExponentialBackoff (attempt : ℕ) (baseDelay : ℕ) : ℕ :=
  baseDelay * 2 ^ attempt

/-- Model of `isRetryableError` from `src/lib/utils.ts`. -/
def isRetryableError (status : ℕ) : Bool :=
  status = 429 || status = 500 || status = 503

/-- The base delay selected for a retryable status: doubled exactly for
HTTP 429, standard otherwise (the inline conditional repeated at both
retry sites of `api-client.ts`). -/
def retryBaseDelay (status : ℕ) : ℕ :=
  if status = 429 then BASE_DELAY * 2 else BASE_DELAY

/-- JavaScript `Response.ok`: status in the 2xx range. -/
def responseOk (status : ℕ) : Bool :=
  200 ≤ status && status < 300

/-- Pagination block of a page envelope (`types/assessment.ts`). -/
structure Pagination where
  page : ℕ
  limit : ℕ
  total : ℕ
  totalPages : ℕ
  hasNext : Bool
  hasPrevious : Bool
deriving DecidableEq

/-- Metadata block of a page envelope. -/
structure Metadata where
  timestamp : String
  version : String
  requestId : String
deriving DecidableEq

/-- The parse outcome of a response body: `notJson` models a body on which
`response.json()` rejects, `nonObject` a JSON value that is `null` or not
an object, and `obj` a parsed JSON object. -/
inductive JsonBody (α : Type) : Type
  | notJson : JsonBody α
  | nonObject : JsonBody α
  | obj (value : α) : JsonBody α
deriving DecidableEq

/-- A page envelope as actually received: any of the three fields may be
absent or, for `data`, not an array; `dataField` is `none` in both of
those cases (`Array.isArray` fails). -/
structure RawEnvelope where
  dataField : Option (List Patient)
  pagination : Option Pagination
  metadata : Option Metadata
deriving DecidableEq

/-- One observed HTTP response during a page fetch: status, status text
and body. -/
structure PageAttempt where
  status : ℕ
  statusText : String
  body : JsonBody RawEnvelope
deriving DecidableEq

/-- Errors raised by the client, distinguished by their source:
`httpError` models `new Error("HTTP <status>: <detail>")`, `jsonError` a
rejected `response.json()`, `invalidFormat` the thrown
invalid-response-format error, and the two `Exhausted` variants the
fallback errors thrown when the loop ends with no recorded error. -/
inductive ClientError : Type
  | httpError (status : ℕ) (detail : String) : ClientError
  | jsonError : ClientError
  | invalidFormat : ClientError
  | fetchExhausted (page : ℕ) : ClientError
  | submitExhausted : ClientError
deriving DecidableEq

/-- The status preserved by a client error, when it preserves one. -/
def ClientError.statusOf : ClientError → Option ℕ
  | ClientError.httpError s _ => some s
  | _ => Option.none

/-- The value returned by a successful `fetchPatientsPage` call.  The
source type promises `pagination` and `metadata`, but the code returns the
parsed body unvalidated beyond the `data` array check, so both are
optional here. -/
structure PatientsResponse where
  data : List Patient
  pagination : Option Pagination
  metadata : Option Metadata
deriving DecidableEq

/-- The pagination synthesized when a page arrives without one:
`{page, limit, total: 0, totalPages: 1, hasNext: false, hasPrevious: false}`. -/
def defaultPagination (page limit : ℕ) : Pagination :=
  { page := page, limit := limit, total := 0, totalPages := 1,
    hasNext := false, hasPrevious := false }

/-- The metadata synthesized when a page arrives without one; the
wall-clock timestamp is modelled as a constant. -/
def defaultMetadata : Metadata :=
  { timestamp := "", version := "v1.0", requestId := "unknown" }

/-- Events performed by the page-fetch client, in order: each issued
request (with its page and zero-indexed attempt) and each awaited sleep
(with its duration in milliseconds). -/
inductive Ev : Type
  | request (page : ℕ) (attempt : ℕ) : Ev
  | slept (ms : ℕ) : Ev
deriving DecidableEq

/-- Number of requests in a trace. -/
def countRequests : List Ev → ℕ
  | [] => 0
  | Ev.request _ _ :: evs => countRequests evs + 1
  | Ev.slept _ :: evs => countRequests evs

/-- The sleep durations of a trace, in order. -/
def sleeps : List Ev → List ℕ
  | [] => []
  | Ev.request _ _ :: evs => sleeps evs
  | Ev.slept ms :: evs => ms :: sleeps evs

/-- The pages of the requests of a trace, in order. -/
def requestedPages : List Ev → List ℕ
  | [] => []
  | Ev.request p _ :: evs => p :: requestedPages evs
  | Ev.slept _ :: evs => requestedPages evs

/-- The retry loop body of `fetchPatientsPage`, one recursive step per
iteration of `for (attempt = 0; attempt < MAX_RETRIES; attempt++)`.
`fuel` counts the iterations still permitted (including the current one)
and `lastError` is the `lastError` variable, set only by the catch block.
A retryable status sleeps its backoff and continues; a thrown error
(non-ok status, unparseable body, non-object body) is caught, recorded,
and rethrown only on the final attempt, otherwise slept over with the
standard backoff; a parsed object either substitutes an empty data list
(preserving or synthesizing pagination and metadata) or returns the
envelope as is.  When the loop ends, the recorded error or the generic
exhaustion error is thrown. -/
def fetchPageLoop (respond : ℕ → PageAttempt) (page limit : ℕ) :
    ℕ → ℕ → Option ClientError → Except ClientError PatientsResponse × List Ev
  | 0, _, lastError =>
      (Except.error (lastError.getD (ClientError.fetchExhausted page)), [])
  | fuel + 1, attempt, lastError =>
      let r := respond attempt
      if isRetryableError r.status then
        let rest := fetchPageLoop respond page limit fuel (attempt + 1) lastError
        (rest.1,
         Ev.request page attempt ::
           Ev.slept (getExponentialBackoff attempt (retryBaseDelay r.status)) :: rest.2)
      else if !responseOk r.status then
        let e := ClientError.httpError r.status r.statusText
        if attempt = MAX_RETRIES - 1 then (Except.error e, [Ev.request page attempt])
        else
          let rest := fetchPageLoop respond page limit fuel (attempt + 1) (some e)
          (rest.1,
           Ev.request page attempt ::
             Ev.slept (getExponentialBackoff attempt BASE_DELAY) :: rest.2)
      else
        match r.body with
        | JsonBody.notJson =>
            if attempt = MAX_RETRIES - 1 then
              (Except.error ClientError.jsonError, [Ev.request page attempt])
            else
              let rest := fetchPageLoop respond page limit fuel (attempt + 1)
                (some ClientError.jsonError)
              (rest.1,
               Ev.request page attempt ::
                 Ev.slept (getExponentialBackoff attempt BASE_DELAY) :: rest.2)
        | JsonBody.nonObject =>
            if attempt = MAX_RETRIES - 1 then
              (Except.error ClientError.invalidFormat, [Ev.request page attempt])
            else
              let rest := fetchPageLoop respond page limit fuel (attempt + 1)
                (some ClientError.invalidFormat)
              (rest.1,
               Ev.request page attempt ::
                 Ev.slept (getExponentialBackoff attempt BASE_DELAY) :: rest.2)
        | JsonBody.obj env =>
            match env.dataField with
            | Option.none =>
                (Except.ok
                  { data := [],
                    pagination := some (env.pagination.getD (defaultPagination page limit)),
                    metadata := some (env.metadata.getD defaultMetadata) },
                 [Ev.request page attempt])
            | some l =>
                (Except.ok
                  { data := l, pagination := env.pagination, metadata := env.metadata },
                 [Ev.request page attempt])

/-- Model of `fetchPatientsPage`: run the retry loop with the full attempt
budget. -/
def fetchPatientsPage (respond : ℕ → PageAttempt) (page limit : ℕ) :
    Except ClientError PatientsResponse × List Ev :=
  fetchPageLoop respond page limit MAX_RETRIES 0 Option.none

/-- The tail of the drive loop of `fetchAllPatients`: for each remaining
page, await the courtesy delay, fetch the page, and append its records;
any page failure propagates. -/
def fetchRemainingPages (oracle : ℕ → ℕ → PageAttempt) :
    List ℕ → List Patient → Except ClientError (List Patient) × List Ev
  | [], acc => (Except.ok acc, [])
  | p :: ps, acc =>
      let r := fetchPatientsPage (oracle p) p 5
      match r.1 with
      | Except.error e => (Except.error e, Ev.slept RATE_LIMIT_DELAY :: r.2)
      | Except.ok pr =>
          let rest := fetchRemainingPages oracle ps (acc ++ pr.data)
          (rest.1, Ev.slept RATE_LIMIT_DELAY :: r.2 ++ rest.2)

/-- Model of `fetchAllPatients`: fetch page 1 to learn `totalPages`
(`pagination?.totalPages || 1` maps an absent pagination, and the falsy
total-page count 0, to 1), then fetch pages 2 up to `totalPages`
sequentially, accumulating records in arrival order.  The oracle gives
the response for each page and attempt. -/
def fetchAllPatients (oracle : ℕ → ℕ → PageAttempt) :
    Except ClientError (List Patient) × List Ev :=
  let first := fetchPatientsPage (oracle 1) 1 5
  match first.1 with
  | Except.error e => (Except.error e, first.2)
  | Except.ok pr =>
      let totalPages :=
        match pr.pagination with
        | Option.none => 1
        | some pg => if pg.totalPages = 0 then 1 else pg.totalPages
      let rest := fetchRemainingPages oracle (List.range' 2 (totalPages - 1)) pr.data
      (rest.1, first.2 ++ rest.2)

/-- One observed HTTP response during a submission attempt: status, body
text (read for non-ok statuses) and the parsed JSON body, `Option.none`
modelling a body on which `response.json()` rejects.  The parsed
submission result is opaque to the client, which returns it verbatim, so
its type is a parameter. -/
structure SubmitAttempt (α : Type) where
  status : ℕ
  bodyText : String
  json : Option α
deriving DecidableEq

/-- Events performed by the submission client. -/
inductive SubEv : Type
  | requested (attempt : ℕ) : SubEv
  | slept (ms : ℕ) : SubEv
deriving DecidableEq

/-- Number of submission requests in a trace. -/
def countSubRequests : List SubEv → ℕ
  | [] => 0
  | SubEv.requested _ :: evs => countSubRequests evs + 1
  | SubEv.slept _ :: evs => countSubRequests evs

/-- The retry loop of `submitAssessment`, structured exactly like
`fetchPageLoop`: retryable statuses sleep their (possibly 429-doubled)
backoff and continue, a non-ok status throws an error carrying the status
and the response body text, an unparseable success body throws, both are
caught and retried until the final attempt, and a parsed body is returned
verbatim. -/
def submitLoop {α : Type} (respond : ℕ → SubmitAttempt α) :
    ℕ → ℕ → Option ClientError → Except ClientError α × List SubEv
  | 0, _, lastError =>
      (Except.error (lastError.getD ClientError.submitExhausted), [])
  | fuel + 1, attempt, lastError =>
      let r := respond attempt
      if isRetryableError r.status then
        let rest := submitLoop respond fuel (attempt + 1) lastError
        (rest.1,
         SubEv.requested attempt ::
           SubEv.slept (getExponentialBackoff attempt (retryBaseDelay r.status)) :: rest.2)
      else if !responseOk r.status then
        let e := ClientError.httpError r.status r.bodyText
        if attempt = MAX_RETRIES - 1 then (Except.error e, [SubEv.requested attempt])
        else
          let rest := submitLoop respond fuel (attempt + 1) (some e)
          (rest.1,
           SubEv.requested attempt ::
             SubEv.slept (getExponentialBackoff attempt BASE_DELAY) :: rest.2)
      else
        match r.json with
        | Option.none =>
            if attempt = MAX_RETRIES - 1 then
              (Except.error ClientError.jsonError, [SubEv.requested attempt])
            else
              let rest := submitLoop respond fuel (attempt + 1) (some ClientError.jsonError)
              (rest.1,
               SubEv.requested attempt ::
                 SubEv.slept (getExponentialBackoff attempt BASE_DELAY) :: rest.2)
        | some v => (Except.ok v, [SubEv.requested attempt])

/-- Model of `submitAssessment`: run the submission retry loop with the
full attempt budget. -/
def submitAssessment {α : Type} (respond : ℕ → SubmitAttempt α) :
    Except ClientError α × List SubEv :=
  submitLoop respond MAX_RETRIES 0 Option.none

/-!
Helper lemmas about the scoring engine.
-/

theorem systolicScore_eq_band (s : ℚ) : systolicScore s = specSystolicBand s := by
  unfold systolicScore specSystolicBand
  split_ifs <;> first | rfl | (exfalso; linarith)

theorem diastolicScore_eq_band (s d : ℚ) : diastolicScore s d = specDiastolicBand s d := by
  unfold diastolicScore specDiastolicBand
  rcases le_or_lt 90 d with h90 | h90
  · rw [if_pos h90, if_pos h90]
  · rw [if_neg (not_le.mpr h90), if_neg (not_le.mpr h90)]
    rcases le_or_lt 80 d with h80 | h80
    · rw [if_pos h80, if_pos h80]
    · rw [if_neg (not_le.mpr h80), if_neg (not_le.mpr h80)]
      rcases le_or_lt 120 s with h120 | h120
      · rcases le_or_lt 130 s with h130 | h130
        · rw [if_neg (by push_neg; intro _; exact h130), if_neg (not_lt.mpr h120),
            if_neg (not_lt.mpr h120), if_pos h130]
        · rw [if_pos ⟨h120, h130⟩, if_neg (not_lt.mpr h120), if_neg (not_le.mpr h130)]
      · rw [if_neg (by push_neg; intro h; exact absurd h (not_le.mpr h120)), if_pos h120,
          if_pos h120]

theorem categoryFor_eq_spec (n : ℤ) : categoryFor n = specCategory n := rfl

theorem systolicScore_bounds (s : ℚ) : 1 ≤ systolicScore s ∧ systolicScore s ≤ 4 := by
  unfold systolicScore
  split_ifs <;> norm_num

theorem diastolicScore_bounds (s d : ℚ) : 0 ≤ diastolicScore s d ∧ diastolicScore s d ≤ 4 := by
  unfold diastolicScore
  split_ifs <;> norm_num

theorem categoryFor_ne_invalid (n : ℤ) : categoryFor n ≠ "Invalid" := by
  unfold categoryFor
  split_ifs <;> decide

/-- Every blood-pressure result is either the invalid record or the valid
record built from some parsed systolic and diastolic pair. -/
theorem scoreBloodPressure_cases (bp : Option String) :
    scoreBloodPressure bp = invalidBP ∨
    ∃ s d, scoreBloodPressure bp =
      { score := max (systolicScore s) (diastolicScore s d), isValid := true,
        category := categoryFor (max (systolicScore s) (diastolicScore s d)) } := by
  cases bp with
  | none => exact Or.inl rfl
  | some str =>
      simp only [scoreBloodPressure]
      split_ifs with h1 h2 h3
      · exact Or.inl rfl
      · exact Or.inl rfl
      · exact Or.inl rfl
      · cases hA : jsNumber (jsTrim ((jsSplitSlash str).getD 0 "")) with
        | none => left; simp [hA]
        | some s =>
            cases hB : jsNumber (jsTrim ((jsSplitSlash str).getD 1 "")) with
            | none => left; simp [hA, hB]
            | some d => right; exact ⟨s, d, by simp [hA, hB]⟩

/-- A temperature value is scored via the numeric if-chain whenever it is
present and converts to a number. -/
theorem scoreTemperature_numeric (v : VitalValue) (q : ℚ) (hv : v ≠ VitalValue.null)
    (h : toNumber v = some q) :
    scoreTemperature v =
      if 101 ≤ q then { score := 2, isValid := true }
      else if (99.6 : ℚ) ≤ q then { score := 1, isValid := true }
      else { score := 0, isValid := true } := by
  cases v with
  | null => exact absurd rfl hv
  | num q0 =>
      have hq : q0 = q := by simpa [toNumber] using h
      subst hq
      rfl
  | str s =>
      have hs : jsNumber s = some q := by simpa [toNumber] using h
      simp [scoreTemperature, toNumber, hs]

/-- An age value is scored via the numeric if-chain whenever it is present
and converts to a number. -/
theorem scoreAge_numeric (v : VitalValue) (q : ℚ) (hv : v ≠ VitalValue.null)
    (h : toNumber v = some q) :
    scoreAge v =
      if 65 < q then { score := 2, isValid := true }
      else if 40 ≤ q then { score := 1, isValid := true }
      else { score := 1, isValid := true } := by
  cases v with
  | null => exact absurd rfl hv
  | num q0 =>
      have hq : q0 = q := by simpa [toNumber] using h
      subst hq
      rfl
  | str s =>
      have hs : jsNumber s = some q := by simpa [toNumber] using h
      simp [scoreAge, toNumber, hs]

/-- A present temperature whose conversion fails is invalid with score 0. -/
theorem scoreTemperature_nan (s : String) (h : jsNumber s = Option.none) :
    scoreTemperature (VitalValue.str s) = { score := 0, isValid := false } := by
  simp [scoreTemperature, toNumber, h]

/-- A present age whose conversion fails is invalid with score 0. -/
theorem scoreAge_nan (s : String) (h : jsNumber s = Option.none) :
    scoreAge (VitalValue.str s) = { score := 0, isValid := false } := by
  simp [scoreAge, toNumber, h]

/-- Every temperature result is the invalid record or one output of the
numeric if-chain. -/
theorem scoreTemperature_cases (v : VitalValue) :
    scoreTemperature v = { score := 0, isValid := false } ∨
    ∃ q, toNumber v = some q ∧
      scoreTemperature v =
        (if 101 ≤ q then { score := 2, isValid := true }
         else if (99.6 : ℚ) ≤ q then { score := 1, isValid := true }
         else { score := 0, isValid := true }) := by
  cases v with
  | null => exact Or.inl rfl
  | num q0 => exact Or.inr ⟨q0, rfl, rfl⟩
  | str s =>
      cases hs : jsNumber s with
      | none => exact Or.inl (scoreTemperature_nan s hs)
      | some q =>
          exact Or.inr ⟨q, by simpa [toNumber] using hs,
            scoreTemperature_numeric _ q (by simp) (by simpa [toNumber] using hs)⟩

/-- Every age result is the invalid record or one output of the numeric
if-chain. -/
theorem scoreAge_cases (v : VitalValue) :
    scoreAge v = { score := 0, isValid := false } ∨
    ∃ q, toNumber v = some q ∧
      scoreAge v =
        (if 65 < q then { score := 2, isValid := true }
         else if 40 ≤ q then { score := 1, isValid := true }
         else { score := 1, isValid := true }) := by
  cases v with
  | null => exact Or.inl rfl
  | num q0 => exact Or.inr ⟨q0, rfl, rfl⟩
  | str s =>
      cases hs : jsNumber s with
      | none => exact Or.inl (scoreAge_nan s hs)
      | some q =>
          exact Or.inr ⟨q, by simpa [toNumber] using hs,
            scoreAge_numeric _ q (by simp) (by simpa [toNumber] using hs)⟩

theorem scoreBloodPressure_score_nonneg (bp : Option String) :
    0 ≤ (scoreBloodPressure bp).score := by
  rcases scoreBloodPressure_cases bp with h | ⟨s, d, h⟩
  · rw [h]; norm_num [invalidBP]
  · rw [h]
    exact le_trans (by norm_num) (le_max_of_le_left (systolicScore_bounds s).1)

theorem scoreTemperature_score_nonneg (v : VitalValue) :
    0 ≤ (scoreTemperature v).score := by
  rcases scoreTemperature_cases v with h | ⟨q, _, h⟩
  · rw [h]
  · rw [h]; split_ifs <;> norm_num

theorem scoreAge_score_nonneg (v : VitalValue) : 0 ≤ (scoreAge v).score := by
  rcases scoreAge_cases v with h | ⟨q, _, h⟩
  · rw [h]
  · rw [h]; split_ifs <;> norm_num

theorem scoreTemperature_null_invalid :
    (scoreTemperature VitalValue.null).isValid = false := rfl

/-- A valid temperature result forces a present value. -/
theorem scoreTemperature_valid_not_null (v : VitalValue)
    (h : (scoreTemperature v).isValid = true) : v.isNull = false := by
  cases v with
  | null => exact absurd h (by rw [scoreTemperature_null_invalid]; exact Bool.false_ne_true)
  | num q0 => rfl
  | str s => rfl

/-!
Claim theorems for the scoring engine.
-/

/-- Claim C1: `scoreBloodPressure` returns the invalid zero result on
absent, empty, blank, badly split, empty-part or non-numeric input, and on
every parsed pair returns validity with the maximum of the spec systolic
and diastolic band scores and the spec category map applied to it — the
function coincides with the spec-side scorer everywhere; in particular
"120/75" scores 2 Elevated, "135/95" scores 4 Stage 2, and "150/", "/90",
the empty string, the absent value and "abc/80" are all invalid. -/
theorem bloodPressure_scoring_correct :
    (∀ bp, scoreBloodPressure bp = specScoreBloodPressure bp) ∧
    scoreBloodPressure (some "120/75") =
      { score := 2, isValid := true, category := "Elevated" } ∧
    scoreBloodPressure (some "135/95") =
      { score := 4, isValid := true, category := "Stage 2" } ∧
    scoreBloodPressure Option.none =
      { score := 0, isValid := false, category := "Invalid" } ∧
    scoreBloodPressure (some "") =
      { score := 0, isValid := false, category := "Invalid" } ∧
    scoreBloodPressure (some "150/") =
      { score := 0, isValid := false, category := "Invalid" } ∧
    scoreBloodPressure (some "/90") =
      { score := 0, isValid := false, category := "Invalid" } ∧
    scoreBloodPressure (some "abc/80") =
      { score := 0, isValid := false, category := "Invalid" } := by
  refine ⟨?_, ?_, ?_, rfl, rfl, ?_, ?_, ?_⟩
  · intro bp
    cases bp with
    | none => rfl
    | some s =>
        simp only [scoreBloodPressure, specScoreBloodPressure, systolicScore_eq_band,
          diastolicScore_eq_band, categoryFor_eq_spec]
  · simp only [scoreBloodPressure]
    norm_num [show jsTrim "120/75" = "120/75" from rfl,
      show jsSplitSlash "120/75" = ["120", "75"] from rfl,
      show jsTrim "120" = "120" from rfl, show jsTrim "75" = "75" from rfl,
      show jsNumber "120" = some 120 from rfl, show jsNumber "75" = some 75 from rfl,
      systolicScore, diastolicScore, categoryFor]
    decide
  · simp only [scoreBloodPressure]
    norm_num [show jsTrim "135/95" = "135/95" from rfl,
      show jsSplitSlash "135/95" = ["135", "95"] from rfl,
      show jsTrim "135" = "135" from rfl, show jsTrim "95" = "95" from rfl,
      show jsNumber "135" = some 135 from rfl, show jsNumber "95" = some 95 from rfl,
      systolicScore, diastolicScore, categoryFor]
    decide
  · simp only [scoreBloodPressure]
    norm_num [show jsTrim "150/" = "150/" from rfl,
      show jsSplitSlash "150/" = ["150", ""] from rfl,
      show jsTrim "150" = "150" from rfl, show jsTrim "" = "" from rfl, invalidBP]
  · simp only [scoreBloodPressure]
    norm_num [show jsTrim "/90" = "/90" from rfl,
      show jsSplitSlash "/90" = ["", "90"] from rfl,
      show jsTrim "90" = "90" from rfl, show jsTrim "" = "" from rfl, invalidBP]
  · simp only [scoreBloodPressure]
    norm_num [show jsTrim "abc/80" = "abc/80" from rfl,
      show jsSplitSlash "abc/80" = ["abc", "80"] from rfl,
      show jsTrim "abc" = "abc" from rfl, show jsTrim "80" = "80" from rfl,
      show jsNumber "abc" = Option.none from rfl, show jsNumber "80" = some 80 from rfl,
      invalidBP]

/-- Claim C4: `scoreTemperature` returns score 0 invalid on an absent
value or an unconvertible string, and on every numeric reading returns
validity with score 2 at or above 101.0, score 1 in [99.6, 101.0), and
score 0 at or below 99.5; in particular 99.5 scores 0 valid, 99.6 scores
1 valid, 101.0 scores 2 valid and the absent value scores 0 invalid. -/
theorem temperature_scoring_correct :
    scoreTemperature VitalValue.null = { score := 0, isValid := false } ∧
    (∀ s, jsNumber s = Option.none →
      scoreTemperature (VitalValue.str s) = { score := 0, isValid := false }) ∧
    (∀ v q, v ≠ VitalValue.null → toNumber v = some q →
      (scoreTemperature v).isValid = true ∧
      (101 ≤ q → scoreTemperature v = { score := 2, isValid := true }) ∧
      ((99.6 : ℚ) ≤ q ∧ q < 101 → scoreTemperature v = { score := 1, isValid := true }) ∧
      (q ≤ (99.5 : ℚ) → scoreTemperature v = { score := 0, isValid := true })) ∧
    scoreTemperature (VitalValue.num 99.5) = { score := 0, isValid := true } ∧
    scoreTemperature (VitalValue.num 99.6) = { score := 1, isValid := true } ∧
    scoreTemperature (VitalValue.num 101) = { score := 2, isValid := true } := by
  refine ⟨rfl, scoreTemperature_nan, ?_, ?_, ?_, ?_⟩
  · intro v q hv h
    rw [scoreTemperature_numeric v q hv h]
    refine ⟨?_, ?_, ?_, ?_⟩
    · split_ifs <;> rfl
    · intro hq
      rw [if_pos hq]
    · rintro ⟨hq1, hq2⟩
      rw [if_neg (not_le.mpr hq2), if_pos hq1]
    · intro hq
      rw [if_neg (by intro hc; norm_num at hc ⊢; linarith),
        if_neg (by intro hc; norm_num at hc ⊢; linarith)]
  · norm_num [scoreTemperature, toNumber]
  · norm_num [scoreTemperature, toNumber]
  · norm_num [scoreTemperature, toNumber]

/-- Witness for the temperature claim: the general parts applied to the
unconvertible string "forty" and to the concrete reading 100.2. -/
theorem temperature_scoring_correct_witness :
    scoreTemperature (VitalValue.str "forty") = { score := 0, isValid := false } ∧
    scoreTemperature (VitalValue.num 100.2) = { score := 1, isValid := true } :=
  ⟨temperature_scoring_correct.2.1 "forty" rfl,
   ((temperature_scoring_correct.2.2.1 (VitalValue.num 100.2) 100.2
      (by intro h; exact VitalValue.noConfusion h) rfl).2.2.1 ⟨by norm_num, by norm_num⟩)⟩

/-- Claim C9: a valid blood-pressure result always scores between 1 and
4 — the systolic chain contributes at least 1, and the diastolic
fall-through on diastolic below 80 with systolic at least 130 contributes
0 without ever making the maximum 0 — so score 0, invalidity and the
Invalid category coincide. -/
theorem bp_valid_score_range :
    (∀ s : ℚ, 1 ≤ systolicScore s) ∧
    (∀ s d : ℚ, d < 80 → 130 ≤ s → diastolicScore s d = 0) ∧
    (∀ bp, (scoreBloodPressure bp).isValid = true →
      1 ≤ (scoreBloodPressure bp).score ∧ (scoreBloodPressure bp).score ≤ 4) ∧
    (∀ bp, (scoreBloodPressure bp).score = 0 ↔ (scoreBloodPressure bp).isValid = false) ∧
    (∀ bp, (scoreBloodPressure bp).isValid = false ↔
      (scoreBloodPressure bp).category = "Invalid") := by
  have hmax : ∀ s d : ℚ, 1 ≤ max (systolicScore s) (diastolicScore s d) ∧
      max (systolicScore s) (diastolicScore s d) ≤ 4 := fun s d =>
    ⟨le_max_of_le_left (systolicScore_bounds s).1,
     max_le (systolicScore_bounds s).2 (diastolicScore_bounds s d).2⟩
  refine ⟨fun s => (systolicScore_bounds s).1, ?_, ?_, ?_, ?_⟩
  · intro s d hd hs
    unfold diastolicScore
    rw [if_neg (not_le.mpr (by linarith)), if_neg (not_le.mpr hd),
      if_neg (by push_neg; intro _; linarith), if_neg (not_lt.mpr (by linarith))]
  · intro bp hvalid
    rcases scoreBloodPressure_cases bp with h | ⟨s, d, h⟩
    · rw [h] at hvalid; exact absurd hvalid (by norm_num [invalidBP])
    · rw [h]; exact hmax s d
  · intro bp
    rcases scoreBloodPressure_cases bp with h | ⟨s, d, h⟩
    · rw [h]; norm_num [invalidBP]
    · rw [h]
      constructor
      · intro h0
        simp only at h0
        have := (hmax s d).1
        exfalso
        omega
      · intro hf
        simp at hf
  · intro bp
    rcases scoreBloodPressure_cases bp with h | ⟨s, d, h⟩
    · rw [h]; norm_num [invalidBP]
    · rw [h]
      constructor
      · intro hf
        simp at hf
      · intro hc
        simp only at hc
        exact absurd hc (categoryFor_ne_invalid _)

/-- Witness for the blood-pressure range claim: the fall-through pair
(135, 70) and the parsed reading "135/70". -/
theorem bp_valid_score_range_witness :
    diastolicScore 135 70 = 0 ∧
    (1 ≤ (scoreBloodPressure (some "135/70")).score ∧
      (scoreBloodPressure (some "135/70")).score ≤ 4) :=
  ⟨bp_valid_score_range.2.1 135 70 (by norm_num) (by norm_num),
   bp_valid_score_range.2.2.1 (some "135/70") (by
    simp only [scoreBloodPressure]
    norm_num [show jsTrim "135/70" = "135/70" from rfl,
      show jsSplitSlash "135/70" = ["135", "70"] from rfl,
      show jsTrim "135" = "135" from rfl, show jsTrim "70" = "70" from rfl,
      show jsNumber "135" = some 135 from rfl, show jsNumber "70" = some 70 from rfl]
    decide)⟩

/-- Claim C10: the empty string (and any blank string) coerces to the
number 0, so an empty-string temperature is a valid normal reading with
score 0 and an empty-string age is a valid reading with score 1 — unlike
the absent value, neither raises the data-quality flag of the assessment,
which then depends only on the blood-pressure validity. -/
theorem empty_string_vitals_valid :
    scoreTemperature (VitalValue.str "") = { score := 0, isValid := true } ∧
    (∀ s, jsTrim s = "" →
      scoreTemperature (VitalValue.str s) = { score := 0, isValid := true }) ∧
    scoreAge (VitalValue.str "") = { score := 1, isValid := true } ∧
    (∀ p : Patient, p.temperature = VitalValue.str "" → p.age = VitalValue.str "" →
      (assessPatientRisk p).hasDataQualityIssues =
        !(scoreBloodPressure p.blood_pressure).isValid) ∧
    (∀ p : Patient, p.temperature = VitalValue.null →
      (assessPatientRisk p).hasDataQualityIssues = true) := by
  have hblank : ∀ s : String, jsTrim s = "" → jsNumber s = some 0 := by
    intro s h
    have hl : jsTrimList s.data = [] := congrArg String.data h
    simp [jsNumber, hl]
  have htempBlank : ∀ s : String, jsTrim s = "" →
      scoreTemperature (VitalValue.str s) = { score := 0, isValid := true } := by
    intro s h
    rw [scoreTemperature_numeric (VitalValue.str s) 0 (by simp)
      (by simpa [toNumber] using hblank s h)]
    norm_num
  refine ⟨htempBlank "" rfl, htempBlank, ?_, ?_, ?_⟩
  · rw [scoreAge_numeric (VitalValue.str "") 0 (by simp)
      (by simpa [toNumber] using hblank "" rfl)]
    norm_num
  · intro p hT hA
    simp only [assessPatientRisk, hT, hA, htempBlank "" rfl]
    rw [scoreAge_numeric (VitalValue.str "") 0 (by simp)
      (by simpa [toNumber] using hblank "" rfl)]
    norm_num
  · intro p hT
    simp [assessPatientRisk, hT, scoreTemperature_null_invalid]

/-- Witness for the empty-string claim: the single-space string is blank
and scores as a valid normal temperature, and a record with empty-string
temperature and age but valid blood pressure raises no quality flag. -/
theorem empty_string_vitals_valid_witness :
    scoreTemperature (VitalValue.str " ") = { score := 0, isValid := true } ∧
    (assessPatientRisk
      { patient_id := "P1", name := "", age := VitalValue.str "",
        gender := "", blood_pressure := some "118/60",
        temperature := VitalValue.str "", visit_date := "", diagnosis := "",
        medications := "" }).hasDataQualityIssues = false := by
  constructor
  · exact empty_string_vitals_valid.2.1 " " rfl
  · rw [empty_string_vitals_valid.2.2.2.1 _ rfl rfl]
    simp only [scoreBloodPressure]
    norm_num [show jsTrim "118/60" = "118/60" from rfl,
      show jsSplitSlash "118/60" = ["118", "60"] from rfl,
      show jsTrim "118" = "118" from rfl, show jsTrim "60" = "60" from rfl,
      show jsNumber "118" = some 118 from rfl, show jsNumber "60" = some 60 from rfl]
    decide

/-- Claim C5: the assessment total is the unweighted sum of the three
field scores and is never negative, the high-risk flag holds exactly at
total at least 4, the quality flag holds exactly when some field is
invalid, the fever flag holds exactly when the temperature is valid and
its converted value is at least 99.6, and the input record is carried
over unchanged. -/
theorem assessment_invariants (p : Patient) :
    (assessPatientRisk p).riskScore.total =
      (assessPatientRisk p).riskScore.bloodPressure +
        (assessPatientRisk p).riskScore.temperature + (assessPatientRisk p).riskScore.age ∧
    0 ≤ (assessPatientRisk p).riskScore.total ∧
    ((assessPatientRisk p).isHighRisk = true ↔ 4 ≤ (assessPatientRisk p).riskScore.total) ∧
    ((assessPatientRisk p).hasDataQualityIssues = true ↔
      ((scoreBloodPressure p.blood_pressure).isValid = false ∨
        (scoreTemperature p.temperature).isValid = false ∨
        (scoreAge p.age).isValid = false)) ∧
    ((assessPatientRisk p).hasFever = true ↔
      ((scoreTemperature p.temperature).isValid = true ∧
        ∃ q, toNumber p.temperature = some q ∧ (99.6 : ℚ) ≤ q)) ∧
    (assessPatientRisk p).patient = p := by
  refine ⟨rfl, ?_, ?_, ?_, ?_, rfl⟩
  · have hbp := scoreBloodPressure_score_nonneg p.blood_pressure
    have ht := scoreTemperature_score_nonneg p.temperature
    have ha := scoreAge_score_nonneg p.age
    simp only [assessPatientRisk]
    linarith
  · simp only [assessPatientRisk, decide_eq_true_eq]
  · simp only [assessPatientRisk, Bool.or_eq_true, Bool.not_eq_true']
    exact or_assoc
  · simp only [assessPatientRisk, Bool.and_eq_true]
    constructor
    · rintro ⟨⟨hval, hnull⟩, hmatch⟩
      refine ⟨hval, ?_⟩
      cases hq : toNumber p.temperature with
      | none => rw [hq] at hmatch; exact absurd hmatch (by simp)
      | some q =>
          refine ⟨q, rfl, ?_⟩
          rw [hq] at hmatch
          simpa using hmatch
    · rintro ⟨hval, q, hq, hge⟩
      refine ⟨⟨hval, ?_⟩, ?_⟩
      · simp [scoreTemperature_valid_not_null _ hval]
      · rw [hq]
        simpa using hge

/-!
Helper lemmas about the retry loop.
-/

/-- Classification of one fetched response by the error, if any, that its
processing throws into the catch block of the retry loop. -/
def pageAttemptError (r : PageAttempt) : Option ClientError :=
  if isRetryableError r.status then Option.none
  else if !responseOk r.status then some (ClientError.httpError r.status r.statusText)
  else
    match r.body with
    | JsonBody.notJson => some ClientError.jsonError
    | JsonBody.nonObject => some ClientError.invalidFormat
    | JsonBody.obj _ => Option.none

theorem fetchPageLoop_step_retry (respond : ℕ → PageAttempt) (page limit fuel attempt : ℕ)
    (le : Option ClientError) (h : isRetryableError (respond attempt).status = true) :
    fetchPageLoop respond page limit (fuel + 1) attempt le =
      ((fetchPageLoop respond page limit fuel (attempt + 1) le).1,
        Ev.request page attempt ::
          Ev.slept (getExponentialBackoff attempt (retryBaseDelay (respond attempt).status)) ::
          (fetchPageLoop respond page limit fuel (attempt + 1) le).2) := by
  simp only [fetchPageLoop]
  rw [if_pos h]

theorem fetchPageLoop_step_caught (respond : ℕ → PageAttempt) (page limit fuel attempt : ℕ)
    (le : Option ClientError) (e : ClientError)
    (herr : pageAttemptError (respond attempt) = some e) :
    fetchPageLoop respond page limit (fuel + 1) attempt le =
      if attempt = MAX_RETRIES - 1 then (Except.error e, [Ev.request page attempt])
      else
        ((fetchPageLoop respond page limit fuel (attempt + 1) (some e)).1,
          Ev.request page attempt ::
            Ev.slept (getExponentialBackoff attempt BASE_DELAY) ::
            (fetchPageLoop respond page limit fuel (attempt + 1) (some e)).2) := by
  unfold pageAttemptError at herr
  by_cases h1 : isRetryableError (respond attempt).status = true
  · rw [if_pos h1] at herr
    exact absurd herr (by simp)
  · rw [if_neg h1] at herr
    by_cases hok : responseOk (respond attempt).status = true
    · rw [if_neg (by rw [hok]; simp)] at herr
      simp only [fetchPageLoop]
      rw [if_neg h1, if_neg (by rw [hok]; simp)]
      cases hb : (respond attempt).body with
      | notJson =>
          rw [hb] at herr
          obtain rfl := Option.some.inj herr
          simp only [hb]
      | nonObject =>
          rw [hb] at herr
          obtain rfl := Option.some.inj herr
          simp only [hb]
      | obj env =>
          rw [hb] at herr
          exact absurd herr (by simp)
    · have hok' : responseOk (respond attempt).status = false := by simpa using hok
      rw [if_pos (by rw [hok']; rfl)] at herr
      obtain rfl := Option.some.inj herr
      simp only [fetchPageLoop]
      rw [if_neg h1, if_pos (show (!responseOk (respond attempt).status) = true by rw [hok']; rfl)]

theorem not_retryable_of_ok (s : ℕ) (h : responseOk s = true) : isRetryableError s = false := by
  unfold responseOk at h
  unfold isRetryableError
  simp only [Bool.and_eq_true, decide_eq_true_eq] at h
  simp only [Bool.or_eq_false_iff, decide_eq_false_iff_not]
  omega

theorem fetchPageLoop_step_okData (respond : ℕ → PageAttempt) (page limit fuel attempt : ℕ)
    (le : Option ClientError) (env : RawEnvelope) (l : List Patient)
    (h2 : responseOk (respond attempt).status = true)
    (hb : (respond attempt).body = JsonBody.obj env) (hd : env.dataField = some l) :
    fetchPageLoop respond page limit (fuel + 1) attempt le =
      (Except.ok { data := l, pagination := env.pagination, metadata := env.metadata },
        [Ev.request page attempt]) := by
  simp only [fetchPageLoop]
  rw [if_neg (by rw [not_retryable_of_ok _ h2]; exact Bool.false_ne_true),
    if_neg (by rw [h2]; simp)]
  simp only [hb, hd]

theorem fetchPageLoop_step_okNoData (respond : ℕ → PageAttempt) (page limit fuel attempt : ℕ)
    (le : Option ClientError) (env : RawEnvelope)
    (h2 : responseOk (respond attempt).status = true)
    (hb : (respond attempt).body = JsonBody.obj env) (hd : env.dataField = Option.none) :
    fetchPageLoop respond page limit (fuel + 1) attempt le =
      (Except.ok
        { data := [],
          pagination := some (env.pagination.getD (defaultPagination page limit)),
          metadata := some (env.metadata.getD defaultMetadata) },
        [Ev.request page attempt]) := by
  simp only [fetchPageLoop]
  rw [if_neg (by rw [not_retryable_of_ok _ h2]; exact Bool.false_ne_true),
    if_neg (by rw [h2]; simp)]
  simp only [hb, hd]

/-- A response classified as error-free by `pageAttemptError` and not
retryable is a successful response with a parsed object body. -/
theorem pageAttemptError_none (r : PageAttempt) (hr : isRetryableError r.status = false)
    (he : pageAttemptError r = Option.none) :
    responseOk r.status = true ∧ ∃ env, r.body = JsonBody.obj env := by
  unfold pageAttemptError at he
  rw [if_neg (by rw [hr]; exact Bool.false_ne_true)] at he
  by_cases hok : responseOk r.status = true
  · rw [if_neg (by rw [hok]; simp)] at he
    refine ⟨hok, ?_⟩
    cases hb : r.body with
    | notJson => rw [hb] at he; exact absurd he (by simp)
    | nonObject => rw [hb] at he; exact absurd he (by simp)
    | obj env => exact ⟨env, rfl⟩
  · have hok' : responseOk r.status = false := by simpa using hok
    rw [if_pos (by rw [hok']; rfl)] at he
    exact absurd he (by simp)

/-- Exhaustion with the same caught error on every attempt: the loop
makes one request per unit of fuel, sleeps the standard backoff between
attempts, and ends by throwing that error. -/
theorem fetchPageLoop_constErr (resp : PageAttempt) (e : ClientError) (page limit : ℕ)
    (herr : pageAttemptError resp = some e) :
    ∀ fuel attempt le, 1 ≤ fuel → attempt + fuel = MAX_RETRIES →
      (fetchPageLoop (fun _ => resp) page limit fuel attempt le).1 = Except.error e ∧
      countRequests (fetchPageLoop (fun _ => resp) page limit fuel attempt le).2 = fuel ∧
      sleeps (fetchPageLoop (fun _ => resp) page limit fuel attempt le).2 =
        (List.range' attempt (fuel - 1)).map
          (fun a => getExponentialBackoff a BASE_DELAY) := by
  have hM : MAX_RETRIES = 5 := rfl
  intro fuel
  induction fuel with
  | zero => intro attempt le h1 _; omega
  | succ f ih =>
      intro attempt le _ h2
      rw [hM] at h2
      rw [fetchPageLoop_step_caught (fun _ => resp) page limit f attempt le e herr]
      by_cases hlast : attempt = MAX_RETRIES - 1
      · rw [if_pos hlast]
        rw [hM] at hlast
        have hf : f = 0 := by omega
        subst hf
        exact ⟨rfl, rfl, rfl⟩
      · rw [if_neg hlast]
        rw [hM] at hlast
        obtain ⟨hres, hcount, hsleeps⟩ := ih (attempt + 1) (some e) (by omega) (by rw [hM]; omega)
        refine ⟨hres, ?_, ?_⟩
        · simp only [countRequests, hcount]
        · simp only [sleeps, hsleeps]
          rw [show f + 1 - 1 = (f - 1) + 1 by omega, List.range'_succ]
          simp

/-- Exhaustion with a retryable status on every attempt: the loop makes
one request per unit of fuel, never records an error, and ends by
throwing the recorded error or the generic exhaustion fallback. -/
theorem fetchPageLoop_allRetry (respond : ℕ → PageAttempt) (page limit : ℕ) :
    ∀ fuel attempt le,
      (∀ a, attempt ≤ a → a < attempt + fuel → isRetryableError (respond a).status = true) →
      (fetchPageLoop respond page limit fuel attempt le).1 =
        Except.error (le.getD (ClientError.fetchExhausted page)) ∧
      countRequests (fetchPageLoop respond page limit fuel attempt le).2 = fuel := by
  intro fuel
  induction fuel with
  | zero => intro attempt le _; exact ⟨rfl, rfl⟩
  | succ f ih =>
      intro attempt le h
      rw [fetchPageLoop_step_retry respond page limit f attempt le (h attempt le_rfl (by omega))]
      obtain ⟨hres, hcount⟩ := ih (attempt + 1) le (fun a ha1 ha2 => h a (by omega) (by omega))
      exact ⟨hres, by simp only [countRequests, hcount]⟩

/-- The retry loop never makes more requests than it has fuel. -/
theorem countRequests_fetchPageLoop_le (respond : ℕ → PageAttempt) (page limit : ℕ) :
    ∀ fuel attempt le,
      countRequests (fetchPageLoop respond page limit fuel attempt le).2 ≤ fuel := by
  intro fuel
  induction fuel with
  | zero => intro attempt le; exact Nat.le.refl
  | succ f ih =>
      intro attempt le
      by_cases hr : isRetryableError (respond attempt).status = true
      · rw [fetchPageLoop_step_retry respond page limit f attempt le hr]
        exact Nat.succ_le_succ (ih (attempt + 1) le)
      · cases he : pageAttemptError (respond attempt) with
        | some e =>
            rw [fetchPageLoop_step_caught respond page limit f attempt le e he]
            by_cases hlast : attempt = MAX_RETRIES - 1
            · rw [if_pos hlast]
              exact Nat.succ_le_succ (Nat.zero_le f)
            · rw [if_neg hlast]
              exact Nat.succ_le_succ (ih (attempt + 1) (some e))
        | none =>
            have hr' : isRetryableError (respond attempt).status = false := by simpa using hr
            obtain ⟨hok, env, hb⟩ := pageAttemptError_none _ hr' he
            cases hd : env.dataField with
            | none =>
                rw [fetchPageLoop_step_okNoData respond page limit f attempt le env hok hb hd]
                exact Nat.succ_le_succ (Nat.zero_le f)
            | some l =>
                rw [fetchPageLoop_step_okData respond page limit f attempt le env l hok hb hd]
                exact Nat.succ_le_succ (Nat.zero_le f)

deriving instance DecidableEq for Except

theorem fetchPatientsPage_okData (respond : ℕ → PageAttempt) (page limit : ℕ)
    (env : RawEnvelope) (l : List Patient)
    (h2 : responseOk (respond 0).status = true)
    (hb : (respond 0).body = JsonBody.obj env) (hd : env.dataField = some l) :
    fetchPatientsPage respond page limit =
      (Except.ok { data := l, pagination := env.pagination, metadata := env.metadata },
        [Ev.request page 0]) := by
  unfold fetchPatientsPage
  rw [show MAX_RETRIES = 4 + 1 from rfl]
  exact fetchPageLoop_step_okData respond page limit 4 0 Option.none env l h2 hb hd

theorem fetchPatientsPage_okNoData (respond : ℕ → PageAttempt) (page limit : ℕ)
    (env : RawEnvelope)
    (h2 : responseOk (respond 0).status = true)
    (hb : (respond 0).body = JsonBody.obj env) (hd : env.dataField = Option.none) :
    fetchPatientsPage respond page limit =
      (Except.ok
        { data := [],
          pagination := some (env.pagination.getD (defaultPagination page limit)),
          metadata := some (env.metadata.getD defaultMetadata) },
        [Ev.request page 0]) := by
  unfold fetchPatientsPage
  rw [show MAX_RETRIES = 4 + 1 from rfl]
  exact fetchPageLoop_step_okNoData respond page limit 4 0 Option.none env h2 hb hd

/-- When every remaining page fetch succeeds on its first attempt, the
drive-loop tail returns all records in page order, preceding every page
request by the courtesy delay. -/
theorem fetchRemainingPages_ok (oracle : ℕ → ℕ → PageAttempt) (env : ℕ → PatientsResponse) :
    ∀ (ps : List ℕ) (acc : List Patient),
      (∀ p ∈ ps, fetchPatientsPage (oracle p) p 5 = (Except.ok (env p), [Ev.request p 0])) →
      fetchRemainingPages oracle ps acc =
        (Except.ok (acc ++ ps.flatMap fun p => (env p).data),
          ps.flatMap fun p => [Ev.slept RATE_LIMIT_DELAY, Ev.request p 0]) := by
  intro ps
  induction ps with
  | nil => intro acc _; simp [fetchRemainingPages]
  | cons p ps ih =>
      intro acc h
      have hp := h p (List.mem_cons_self p ps)
      simp only [fetchRemainingPages, hp]
      rw [ih (acc ++ (env p).data) (fun q hq => h q (List.mem_cons_of_mem p hq))]
      simp

theorem countRequests_pairTrace (ps : List ℕ) :
    countRequests (ps.flatMap fun p => [Ev.slept RATE_LIMIT_DELAY, Ev.request p 0]) =
      ps.length := by
  induction ps with
  | nil => rfl
  | cons p ps ih =>
      simp only [List.flatMap_cons, List.cons_append, List.nil_append, countRequests,
        List.length_cons]
      rw [show ([] : List Ev).append
          (List.map (fun p => [Ev.slept RATE_LIMIT_DELAY, Ev.request p 0]) ps).flatten =
          ps.flatMap fun p => [Ev.slept RATE_LIMIT_DELAY, Ev.request p 0] from rfl, ih]

theorem requestedPages_pairTrace (ps : List ℕ) :
    requestedPages (ps.flatMap fun p => [Ev.slept RATE_LIMIT_DELAY, Ev.request p 0]) = ps := by
  induction ps with
  | nil => rfl
  | cons p ps ih =>
      simp only [List.flatMap_cons, List.cons_append, List.nil_append, requestedPages]
      rw [show ([] : List Ev).append
          (List.map (fun p => [Ev.slept RATE_LIMIT_DELAY, Ev.request p 0]) ps).flatten =
          ps.flatMap fun p => [Ev.slept RATE_LIMIT_DELAY, Ev.request p 0] from rfl, ih]

theorem rateLimitDelay_ne_backoff (a : ℕ) :
    RATE_LIMIT_DELAY ≠ getExponentialBackoff a BASE_DELAY ∧
    RATE_LIMIT_DELAY ≠ getExponentialBackoff a (BASE_DELAY * 2) := by
  have hx : 1 ≤ 2 ^ a := Nat.one_le_pow a 2 (by norm_num)
  unfold RATE_LIMIT_DELAY getExponentialBackoff BASE_DELAY
  constructor <;> · intro h; omega

/-- Claim C6: when the first page declares `totalPages = N` (with N at
least 1) and every page fetch succeeds with well-formed data,
`fetchAllPatients` issues exactly one request per page, for pages 1
through N in increasing order, precedes every page after the first by the
constant courtesy delay (distinct from every backoff delay), terminates,
and returns the concatenation of all pages in page order. -/
theorem pagination_drive_loop (oracle : ℕ → ℕ → PageAttempt) (records : ℕ → List Patient)
    (pg : ℕ → Pagination) (N : ℕ) (hN : 1 ≤ N)
    (hres : ∀ p a, oracle p a =
      { status := 200, statusText := "OK",
        body := JsonBody.obj
          { dataField := some (records p), pagination := some (pg p),
            metadata := Option.none } })
    (htp : (pg 1).totalPages = N) :
    fetchAllPatients oracle =
      (Except.ok ((List.range' 1 N).flatMap records),
        Ev.request 1 0 ::
          (List.range' 2 (N - 1)).flatMap fun p => [Ev.slept RATE_LIMIT_DELAY, Ev.request p 0]) ∧
    countRequests (fetchAllPatients oracle).2 = N ∧
    requestedPages (fetchAllPatients oracle).2 = List.range' 1 N ∧
    (∀ a : ℕ, RATE_LIMIT_DELAY ≠ getExponentialBackoff a BASE_DELAY ∧
      RATE_LIMIT_DELAY ≠ getExponentialBackoff a (BASE_DELAY * 2)) := by
  have hsplit : List.range' 1 N = 1 :: List.range' 2 (N - 1) := by
    have h0 := List.range'_succ 1 (N - 1) 1
    rw [show N - 1 + 1 = N by omega] at h0
    simpa using h0
  have hpage : ∀ p, fetchPatientsPage (oracle p) p 5 =
      (Except.ok { data := records p, pagination := some (pg p), metadata := Option.none },
        [Ev.request p 0]) := by
    intro p
    exact fetchPatientsPage_okData (oracle p) p 5
      { dataField := some (records p), pagination := some (pg p), metadata := Option.none }
      (records p) (by rw [hres p 0]; rfl) (by rw [hres p 0]) rfl
  have hmain : fetchAllPatients oracle =
      (Except.ok ((List.range' 1 N).flatMap records),
        Ev.request 1 0 ::
          (List.range' 2 (N - 1)).flatMap fun p =>
            [Ev.slept RATE_LIMIT_DELAY, Ev.request p 0]) := by
    unfold fetchAllPatients
    simp only [hpage 1]
    rw [htp, if_neg (by omega)]
    rw [fetchRemainingPages_ok oracle
      (fun p => { data := records p, pagination := some (pg p), metadata := Option.none })
      (List.range' 2 (N - 1)) (records 1) (fun q _ => hpage q)]
    rw [hsplit]
    simp
  refine ⟨hmain, ?_, ?_, rateLimitDelay_ne_backoff⟩
  · rw [hmain]
    simp only [countRequests, countRequests_pairTrace, List.length_range']
    omega
  · rw [hmain]
    simp only [requestedPages, requestedPages_pairTrace]
    rw [hsplit]

/-- The all-good three-page oracle used to witness the drive-loop claim. -/
def c6pagination : Pagination :=
  { page := 1, limit := 5, total := 0, totalPages := 3, hasNext := true, hasPrevious := false }

/-- An oracle serving three well-formed empty pages. -/
def c6oracle : ℕ → ℕ → PageAttempt := fun _ _ =>
  { status := 200, statusText := "OK",
    body := JsonBody.obj
      { dataField := some [], pagination := some c6pagination, metadata := Option.none } }

/-- Witness for the drive-loop claim: three declared pages produce
requests for pages 1, 2, 3 with a 500 ms delay before pages 2 and 3. -/
theorem pagination_drive_loop_witness :
    fetchAllPatients c6oracle =
      (Except.ok ([] : List Patient),
        [Ev.request 1 0, Ev.slept 500, Ev.request 2 0, Ev.slept 500, Ev.request 3 0]) ∧
    countRequests (fetchAllPatients c6oracle).2 = 3 := by
  have h := pagination_drive_loop c6oracle (fun _ => []) (fun _ => c6pagination) 3
    (by norm_num) (fun p a => rfl) rfl
  refine ⟨?_, h.2.1⟩
  rw [h.1]
  decide

/-- Claim C7: a successful page whose parsed body lacks an array `data`
field yields an empty record list — preserving the received pagination
when present and otherwise synthesizing one with a single total page —
and the surrounding retrieval run is not aborted: it completes with that
page contributing zero records. -/
theorem malformed_data_recovered :
    (∀ (respond : ℕ → PageAttempt) (page limit : ℕ) (env : RawEnvelope),
      responseOk (respond 0).status = true → (respond 0).body = JsonBody.obj env →
      env.dataField = Option.none →
      fetchPatientsPage respond page limit =
        (Except.ok
          { data := [],
            pagination := some (env.pagination.getD (defaultPagination page limit)),
            metadata := some (env.metadata.getD defaultMetadata) },
          [Ev.request page 0]) ∧
      (defaultPagination page limit).totalPages = 1) ∧
    (∀ (oracle : ℕ → ℕ → PageAttempt) (records : ℕ → List Patient) (pg : ℕ → Pagination)
      (N k : ℕ) (md : Option Metadata), 1 ≤ N →
      (∀ p a, p ≠ k → oracle p a =
        { status := 200, statusText := "OK",
          body := JsonBody.obj
            { dataField := some (records p), pagination := some (pg p),
              metadata := Option.none } }) →
      (∀ a, oracle k a =
        { status := 200, statusText := "OK",
          body := JsonBody.obj
            { dataField := Option.none, pagination := some (pg k), metadata := md } }) →
      (pg 1).totalPages = N →
      (fetchAllPatients oracle).1 =
        Except.ok ((List.range' 1 N).flatMap fun p => if p = k then [] else records p)) := by
  constructor
  · intro respond page limit env hok hb hd
    exact ⟨fetchPatientsPage_okNoData respond page limit env hok hb hd, rfl⟩
  · intro oracle records pg N k md hN hgood hbad htp
    have hsplit : List.range' 1 N = 1 :: List.range' 2 (N - 1) := by
      have h0 := List.range'_succ 1 (N - 1) 1
      rw [show N - 1 + 1 = N by omega] at h0
      simpa using h0
    have hpage : ∀ p, fetchPatientsPage (oracle p) p 5 =
        (Except.ok
          { data := if p = k then [] else records p, pagination := some (pg p),
            metadata := if p = k then some (md.getD defaultMetadata) else Option.none },
          [Ev.request p 0]) := by
      intro p
      by_cases hp : p = k
      · subst hp
        rw [fetchPatientsPage_okNoData (oracle p) p 5
          { dataField := Option.none, pagination := some (pg p), metadata := md }
          (by rw [hbad 0]; rfl) (by rw [hbad 0]) rfl]
        simp
      · rw [fetchPatientsPage_okData (oracle p) p 5
          { dataField := some (records p), pagination := some (pg p),
            metadata := Option.none } (records p)
          (by rw [hgood p 0 hp]; rfl) (by rw [hgood p 0 hp]) rfl]
        simp [hp]
    have hall : fetchAllPatients oracle =
        (Except.ok ((List.range' 1 N).flatMap fun p => if p = k then [] else records p),
          Ev.request 1 0 ::
            (List.range' 2 (N - 1)).flatMap fun p =>
              [Ev.slept RATE_LIMIT_DELAY, Ev.request p 0]) := by
      unfold fetchAllPatients
      simp only [hpage 1]
      rw [htp, if_neg (by omega)]
      rw [fetchRemainingPages_ok oracle
        (fun p =>
          { data := if p = k then [] else records p, pagination := some (pg p),
            metadata := if p = k then some (md.getD defaultMetadata) else Option.none })
        (List.range' 2 (N - 1)) (if 1 = k then [] else records 1) (fun q _ => hpage q)]
      rw [hsplit]
      simp
    rw [hall]

/-- Pagination declaring three pages, used in the malformed-data witness. -/
def c7pagination : Pagination :=
  { page := 1, limit := 5, total := 0, totalPages := 3, hasNext := true, hasPrevious := false }

/-- A minimal patient record carrying only an identifier. -/
def c7patient (i : String) : Patient :=
  { patient_id := i, name := "", age := VitalValue.null, gender := "",
    blood_pressure := Option.none, temperature := VitalValue.null,
    visit_date := "", diagnosis := "", medications := "" }

/-- An oracle serving three pages where page 2 arrives without an array
`data` field but with its pagination intact. -/
def c7oracle : ℕ → ℕ → PageAttempt := fun p _ =>
  if p = 2 then
    { status := 200, statusText := "OK",
      body := JsonBody.obj
        { dataField := Option.none, pagination := some c7pagination,
          metadata := Option.none } }
  else
    { status := 200, statusText := "OK",
      body := JsonBody.obj
        { dataField := some [c7patient (if p = 1 then "A" else "C")],
          pagination := some c7pagination, metadata := Option.none } }

/-- Witness for the malformed-data claim: with page 2 of 3 malformed, the
run completes with pages 1 and 3 contributing their records, and the
malformed page itself returns an empty envelope preserving pagination. -/
theorem malformed_data_recovered_witness :
    (fetchAllPatients c7oracle).1 = Except.ok [c7patient "A", c7patient "C"] ∧
    fetchPatientsPage (c7oracle 2) 2 5 =
      (Except.ok
        { data := [], pagination := some c7pagination, metadata := some defaultMetadata },
        [Ev.request 2 0]) := by
  constructor
  · have h := malformed_data_recovered.2 c7oracle
      (fun p => [c7patient (if p = 1 then "A" else "C")]) (fun _ => c7pagination) 3 2
      Option.none (by norm_num) (fun p a hp => by simp [c7oracle, hp])
      (fun a => by simp [c7oracle]) rfl
    rw [h]
    decide
  · have h := (malformed_data_recovered.1 (c7oracle 2) 2 5
      { dataField := Option.none, pagination := some c7pagination, metadata := Option.none }
      (by decide) (by decide) rfl).1
    rw [h]
    decide

/-!
Helper lemmas about the submission retry loop, mirroring the page loop.
-/

/-- Classification of one submission response by the error, if any, that
its processing throws into the catch block. -/
def subAttemptError {α : Type} (r : SubmitAttempt α) : Option ClientError :=
  if isRetryableError r.status then Option.none
  else if !responseOk r.status then some (ClientError.httpError r.status r.bodyText)
  else
    match r.json with
    | Option.none => some ClientError.jsonError
    | some _ => Option.none

theorem submitLoop_step_retry {α : Type} (respond : ℕ → SubmitAttempt α)
    (fuel attempt : ℕ) (le : Option ClientError)
    (h : isRetryableError (respond attempt).status = true) :
    submitLoop respond (fuel + 1) attempt le =
      ((submitLoop respond fuel (attempt + 1) le).1,
        SubEv.requested attempt ::
          SubEv.slept (getExponentialBackoff attempt (retryBaseDelay (respond attempt).status)) ::
          (submitLoop respond fuel (attempt + 1) le).2) := by
  simp only [submitLoop]
  rw [if_pos h]

theorem submitLoop_step_caught {α : Type} (respond : ℕ → SubmitAttempt α)
    (fuel attempt : ℕ) (le : Option ClientError) (e : ClientError)
    (herr : subAttemptError (respond attempt) = some e) :
    submitLoop respond (fuel + 1) attempt le =
      if attempt = MAX_RETRIES - 1 then (Except.error e, [SubEv.requested attempt])
      else
        ((submitLoop respond fuel (attempt + 1) (some e)).1,
          SubEv.requested attempt ::
            SubEv.slept (getExponentialBackoff attempt BASE_DELAY) ::
            (submitLoop respond fuel (attempt + 1) (some e)).2) := by
  unfold subAttemptError at herr
  by_cases h1 : isRetryableError (respond attempt).status = true
  · rw [if_pos h1] at herr
    exact absurd herr (by simp)
  · rw [if_neg h1] at herr
    by_cases hok : responseOk (respond attempt).status = true
    · rw [if_neg (by rw [hok]; simp)] at herr
      simp only [submitLoop]
      rw [if_neg h1, if_neg (by rw [hok]; simp)]
      cases hb : (respond attempt).json with
      | none =>
          rw [hb] at herr
          obtain rfl := Option.some.inj herr
          simp only [hb]
      | some v =>
          rw [hb] at herr
          exact absurd herr (by simp)
    · have hok' : responseOk (respond attempt).status = false := by simpa using hok
      rw [if_pos (by rw [hok']; rfl)] at herr
      obtain rfl := Option.some.inj herr
      simp only [submitLoop]
      rw [if_neg h1, if_pos (show (!responseOk (respond attempt).status) = true by rw [hok']; rfl)]

/-- Submission exhaustion with the same caught error on every attempt. -/
theorem submitLoop_constErr {α : Type} (resp : SubmitAttempt α) (e : ClientError)
    (herr : subAttemptError resp = some e) :
    ∀ fuel attempt le, 1 ≤ fuel → attempt + fuel = MAX_RETRIES →
      (submitLoop (fun _ => resp) fuel attempt le).1 = Except.error e ∧
      countSubRequests (submitLoop (fun _ => resp) fuel attempt le).2 = fuel := by
  have hM : MAX_RETRIES = 5 := rfl
  intro fuel
  induction fuel with
  | zero => intro attempt le h1 _; omega
  | succ f ih =>
      intro attempt le _ h2
      rw [hM] at h2
      rw [submitLoop_step_caught (fun _ => resp) f attempt le e herr]
      by_cases hlast : attempt = MAX_RETRIES - 1
      · rw [if_pos hlast]
        rw [hM] at hlast
        have hf : f = 0 := by omega
        subst hf
        exact ⟨rfl, rfl⟩
      · rw [if_neg hlast]
        rw [hM] at hlast
        obtain ⟨hres, hcount⟩ := ih (attempt + 1) (some e) (by omega) (by rw [hM]; omega)
        exact ⟨hres, by simp only [countSubRequests, hcount]⟩

/-- Submission exhaustion with a retryable status on every attempt. -/
theorem submitLoop_allRetry {α : Type} (respond : ℕ → SubmitAttempt α) :
    ∀ fuel attempt le,
      (∀ a, attempt ≤ a → a < attempt + fuel → isRetryableError (respond a).status = true) →
      (submitLoop respond fuel attempt le).1 =
        Except.error (le.getD ClientError.submitExhausted) ∧
      countSubRequests (submitLoop respond fuel attempt le).2 = fuel := by
  intro fuel
  induction fuel with
  | zero => intro attempt le _; exact ⟨rfl, rfl⟩
  | succ f ih =>
      intro attempt le h
      rw [submitLoop_step_retry respond f attempt le (h attempt le_rfl (by omega))]
      obtain ⟨hres, hcount⟩ := ih (attempt + 1) le (fun a ha1 ha2 => h a (by omega) (by omega))
      exact ⟨hres, by simp only [countSubRequests, hcount]⟩

/-- An oracle answering HTTP 429 on the first three attempts and a
well-formed empty page on the fourth. -/
def c8oracle : ℕ → PageAttempt := fun a =>
  if a < 3 then { status := 429, statusText := "Too Many Requests", body := JsonBody.notJson }
  else
    { status := 200, statusText := "OK",
      body := JsonBody.obj
        { dataField := some [], pagination := Option.none, metadata := Option.none } }

/-- Claim C8: the backoff is `baseDelay * 2 ^ attempt` with the attempt
zero-indexed, the retry base is doubled (2000 ms instead of 1000 ms)
exactly for status 429, a page returning 429 three times and then a
well-formed 200 succeeds on the fourth attempt after waits of 2000, 4000
and 8000 ms — the standard 1000+2000+4000 schedule scaled by the 429
multiplier — and no call ever makes more than 5 requests. -/
theorem backoff_schedule_correct :
    (∀ attempt baseDelay : ℕ,
      getExponentialBackoff attempt baseDelay = baseDelay * 2 ^ attempt) ∧
    retryBaseDelay 429 = 2000 ∧
    (∀ s, s ≠ 429 → retryBaseDelay s = 1000) ∧
    (fetchPatientsPage c8oracle 1 5).1 =
      Except.ok { data := [], pagination := Option.none, metadata := Option.none } ∧
    (fetchPatientsPage c8oracle 1 5).2 =
      [Ev.request 1 0, Ev.slept 2000, Ev.request 1 1, Ev.slept 4000, Ev.request 1 2,
        Ev.slept 8000, Ev.request 1 3] ∧
    (sleeps (fetchPatientsPage c8oracle 1 5).2).sum = 2 * (1000 + 2000 + 4000) ∧
    countRequests (fetchPatientsPage c8oracle 1 5).2 = 4 ∧
    (∀ (respond : ℕ → PageAttempt) (page limit : ℕ),
      countRequests (fetchPatientsPage respond page limit).2 ≤ 5) := by
  refine ⟨fun attempt baseDelay => rfl, rfl, ?_, by decide, by decide, by decide, by decide, ?_⟩
  · intro s hs
    unfold retryBaseDelay
    rw [if_neg hs]
    rfl
  · intro respond page limit
    exact countRequests_fetchPageLoop_le respond page limit MAX_RETRIES 0 Option.none

/-- Witness for the backoff claim: the non-429 retryable status 500
selects the standard base, and the scenario oracle stays within the
5-attempt ceiling. -/
theorem backoff_schedule_correct_witness :
    retryBaseDelay 500 = 1000 ∧ countRequests (fetchPatientsPage c8oracle 1 5).2 ≤ 5 :=
  ⟨backoff_schedule_correct.2.2.1 500 (by norm_num),
   backoff_schedule_correct.2.2.2.2.2.2.2 c8oracle 1 5⟩

/-- A constant non-retryable failing response: HTTP 404. -/
def c2resp : PageAttempt :=
  { status := 404, statusText := "Not Found", body := JsonBody.notJson }

/-- A constant non-retryable failing submission response. -/
def c2subResp : SubmitAttempt Unit :=
  { status := 404, bodyText := "not found body", json := Option.none }

/-- Counterexample to claim C2: with every attempt answering HTTP 404 —
a non-retryable status — `fetchPatientsPage` issues 5 requests, not the
single request the claim demands of a call that fails immediately with no
retry; the eventual error does preserve the status. -/
theorem nonretryable_counterexample :
    countRequests (fetchPatientsPage (fun _ => c2resp) 7 5).2 = 5 ∧
    countRequests (fetchPatientsPage (fun _ => c2resp) 7 5).2 ≠ 1 ∧
    (fetchPatientsPage (fun _ => c2resp) 7 5).1 =
      Except.error (ClientError.httpError 404 "Not Found") := by
  refine ⟨by decide, by decide, by decide⟩

/-- Claim C2 as amended: a non-retryable error status, or a success
response with an unparseable body, is thrown for that attempt but caught
by the retry loop and retried with the standard backoff; only after all
5 attempts does the call fail, and the propagated error preserves the
status and the body detail of the last attempt.  Both the page fetch and
the submission behave this way. -/
theorem nonretryable_retried_then_fatal :
    (∀ (resp : PageAttempt) (page limit : ℕ),
      isRetryableError resp.status = false → responseOk resp.status = false →
      (fetchPatientsPage (fun _ => resp) page limit).1 =
        Except.error (ClientError.httpError resp.status resp.statusText) ∧
      countRequests (fetchPatientsPage (fun _ => resp) page limit).2 = 5 ∧
      sleeps (fetchPatientsPage (fun _ => resp) page limit).2 =
        [1000, 2000, 4000, 8000]) ∧
    (∀ (resp : PageAttempt) (page limit : ℕ),
      responseOk resp.status = true → resp.body = JsonBody.notJson →
      (fetchPatientsPage (fun _ => resp) page limit).1 =
        Except.error ClientError.jsonError ∧
      countRequests (fetchPatientsPage (fun _ => resp) page limit).2 = 5) ∧
    (∀ (α : Type) (resp : SubmitAttempt α),
      isRetryableError resp.status = false → responseOk resp.status = false →
      (submitAssessment (fun _ => resp)).1 =
        Except.error (ClientError.httpError resp.status resp.bodyText) ∧
      countSubRequests (submitAssessment (fun _ => resp)).2 = 5) ∧
    (∀ (α : Type) (resp : SubmitAttempt α),
      responseOk resp.status = true → resp.json = Option.none →
      (submitAssessment (fun _ => resp)).1 = Except.error ClientError.jsonError ∧
      countSubRequests (submitAssessment (fun _ => resp)).2 = 5) := by
  refine ⟨?_, ?_, ?_, ?_⟩
  · intro resp page limit hr hok
    have herr : pageAttemptError resp =
        some (ClientError.httpError resp.status resp.statusText) := by
      unfold pageAttemptError
      rw [if_neg (by rw [hr]; exact Bool.false_ne_true),
        if_pos (show (!responseOk resp.status) = true by rw [hok]; rfl)]
    unfold fetchPatientsPage
    obtain ⟨hres, hcount, hsleeps⟩ :=
      fetchPageLoop_constErr resp _ page limit herr MAX_RETRIES 0 Option.none (by decide) rfl
    refine ⟨hres, hcount, ?_⟩
    rw [hsleeps]
    decide
  · intro resp page limit hok hb
    have herr : pageAttemptError resp = some ClientError.jsonError := by
      unfold pageAttemptError
      rw [if_neg (by rw [not_retryable_of_ok _ hok]; exact Bool.false_ne_true),
        if_neg (by rw [hok]; simp), hb]
    obtain ⟨hres, hcount, _⟩ :=
      fetchPageLoop_constErr resp _ page limit herr MAX_RETRIES 0 Option.none (by decide) rfl
    exact ⟨hres, hcount⟩
  · intro α resp hr hok
    have herr : subAttemptError resp =
        some (ClientError.httpError resp.status resp.bodyText) := by
      unfold subAttemptError
      rw [if_neg (by rw [hr]; exact Bool.false_ne_true),
        if_pos (show (!responseOk resp.status) = true by rw [hok]; rfl)]
    exact submitLoop_constErr resp _ herr 5 0 Option.none (by norm_num) rfl
  · intro α resp hok hb
    have herr : subAttemptError resp = some ClientError.jsonError := by
      unfold subAttemptError
      rw [if_neg (by rw [not_retryable_of_ok _ hok]; exact Bool.false_ne_true),
        if_neg (by rw [hok]; simp), hb]
    exact submitLoop_constErr resp _ herr 5 0 Option.none (by norm_num) rfl

/-- Witness for the amended non-retryable claim: the constant 404 page
response and the constant 404 submission response both exhaust all 5
attempts and propagate the status-preserving error. -/
theorem nonretryable_retried_then_fatal_witness :
    ((fetchPatientsPage (fun _ => c2resp) 7 5).1 =
        Except.error (ClientError.httpError 404 "Not Found") ∧
      sleeps (fetchPatientsPage (fun _ => c2resp) 7 5).2 = [1000, 2000, 4000, 8000]) ∧
    ((submitAssessment (fun _ => c2subResp)).1 =
        Except.error (ClientError.httpError 404 "not found body") ∧
      countSubRequests (submitAssessment (fun _ => c2subResp)).2 = 5) := by
  constructor
  · have h := nonretryable_retried_then_fatal.1 c2resp 7 5 (by decide) (by decide)
    exact ⟨h.1, h.2.2⟩
  · have h := nonretryable_retried_then_fatal.2.2.1 Unit c2subResp (by decide) (by decide)
    exact ⟨h.1, h.2⟩

/-- A constant rate-limited response: HTTP 429 on every attempt. -/
def c3resp : PageAttempt :=
  { status := 429, statusText := "Too Many Requests", body := JsonBody.notJson }

/-- A constant rate-limited submission response. -/
def c3subResp : SubmitAttempt Unit :=
  { status := 429, bodyText := "rate limited", json := Option.none }

/-- Counterexample to claim C3: with HTTP 429 on all 5 attempts the call
does stop after the 5th request, but the error it raises is the generic
exhaustion fallback, which carries no status at all — not the last
observed cause.  The retryable branch never records into `lastError`, so
the final `throw lastError || new Error(...)` takes the fallback. -/
theorem retry_exhaustion_counterexample :
    (fetchPatientsPage (fun _ => c3resp) 3 5).1 =
      Except.error (ClientError.fetchExhausted 3) ∧
    (ClientError.fetchExhausted 3).statusOf = Option.none ∧
    (ClientError.fetchExhausted 3).statusOf ≠ some 429 ∧
    countRequests (fetchPatientsPage (fun _ => c3resp) 3 5).2 = 5 := by
  refine ⟨by decide, rfl, by decide, by decide⟩

/-- Claim C3 as amended: if all 5 attempts of a page fetch (or of a
submission) observe a retryable status, the call makes no request beyond
the 5th attempt and raises the fatal generic exhaustion error naming the
call, which does not carry the last observed cause. -/
theorem retry_exhaustion_generic_error :
    (∀ (respond : ℕ → PageAttempt) (page limit : ℕ),
      (∀ a, a < 5 → isRetryableError (respond a).status = true) →
      (fetchPatientsPage respond page limit).1 =
        Except.error (ClientError.fetchExhausted page) ∧
      countRequests (fetchPatientsPage respond page limit).2 = 5 ∧
      (ClientError.fetchExhausted page).statusOf = Option.none) ∧
    (∀ (α : Type) (respond : ℕ → SubmitAttempt α),
      (∀ a, a < 5 → isRetryableError (respond a).status = true) →
      (submitAssessment respond).1 = Except.error ClientError.submitExhausted ∧
      countSubRequests (submitAssessment respond).2 = 5) := by
  constructor
  · intro respond page limit h
    unfold fetchPatientsPage
    obtain ⟨hres, hcount⟩ := fetchPageLoop_allRetry respond page limit MAX_RETRIES 0
      Option.none (fun a _ ha => h a (by simpa [MAX_RETRIES] using ha))
    exact ⟨hres, hcount, rfl⟩
  · intro α respond h
    unfold submitAssessment
    exact submitLoop_allRetry respond MAX_RETRIES 0 Option.none
      (fun a _ ha => h a (by simpa [MAX_RETRIES] using ha))

/-- Witness for the amended exhaustion claim: the constant 429 page and
submission responses. -/
theorem retry_exhaustion_generic_error_witness :
    ((fetchPatientsPage (fun _ => c3resp) 3 5).1 =
        Except.error (ClientError.fetchExhausted 3) ∧
      countRequests (fetchPatientsPage (fun _ => c3resp) 3 5).2 = 5) ∧
    ((submitAssessment (fun _ => c3subResp)).1 =
        Except.error ClientError.submitExhausted ∧
      countSubRequests (submitAssessment (fun _ => c3subResp)).2 = 5) := by
  constructor
  · have h := retry_exhaustion_generic_error.1 (fun _ => c3resp) 3 5
      (fun a _ => rfl)
    exact ⟨h.1, h.2.1⟩
  · exact retry_exhaustion_generic_error.2 Unit (fun _ => c3subResp) (fun a _ => rfl)
